import Mathlib

/-!
Verification of the Water-Monitoring dashboard core: the constraint
checker (`constraints.py`), the data-access gateway (`db.py`) and the
per-row alert evaluator (`app.py`, `highlight_alerts`), shallowly
embedded in Lean 4.

Modelling conventions:
* A data-frame cell is `Cell.null` (None/NaN: `pd.notnull` is false),
  `Cell.num q` (a value on which Python `float(...)` succeeds and
  yields `q`), or `Cell.junk` (a non-null value on which `float(...)`
  raises).  Rational numbers stand for the Python floats that occur in
  the thresholds and examples (all decimal literals).
* A row is an association list from column name to cell; a data frame
  carries its column list and its rows.
* The SQL store behind `fetch_data` is an explicit function argument
  from (query text, bound parameters) to `Except` (error or frame),
  so that error swallowing and query forwarding are observable.
-/

/-- A single cell of a data frame. -/
inductive Cell where
  | null : Cell
  | num : ℚ → Cell
  | junk : Cell
deriving DecidableEq, Repr

/-- A row: association list from column name to cell value. -/
abbrev Row := List (String × Cell)

/-- A pandas data frame: its column names and its rows. -/
structure DataFrame where
  columns : List String
  rows : List Row
deriving DecidableEq, Repr

/-! ## constraints.py -/

/-- The `CONSTRAINTS` registry of `constraints.py`: per table, the
column-range rules `(column, (min, max))`. -/
def CONSTRAINTS : List (String × List (String × ℤ × ℤ)) :=
  [("river_data", [("water_level", 1000, 2000)]),
   ("dam_data", [("capacity", 5000, 10000)]),
   ("epan_data", [("some_column", 100, 200)]),
   ("aws_data", [("temperature", 100, 200)]),
   ("ars_data", [("pressure", 500, 1000)]),
   ("gate_data", [("status", 2, 3)])]

/-- The mask `(df[column] < min_val) | (df[column] > max_val)` on one cell:
a numeric cell strictly outside the closed range; a NaN compares
false on both sides, hence is never invalid. -/
def invalidCell (c : Cell) (minv maxv : ℤ) : Bool :=
  match c with
  | Cell.num q => decide (q < (minv : ℚ)) || decide ((maxv : ℚ) < q)
  | _ => false

/-- Whether a row is counted among `invalid_rows` for a rule; a column
missing from the row is a NaN cell in pandas. -/
def rowInvalid (r : Row) (column : String) (minv maxv : ℤ) : Bool :=
  invalidCell ((r.lookup column).getD Cell.null) minv maxv

/-- The `[{min_val}, {max_val}]` fragment of the alert message. -/
def rangeStr (minv maxv : ℤ) : String :=
  "[" ++ toString minv ++ ", " ++ toString maxv ++ "]"

/-- The f-string `alert_msg` of `check_constraints`. -/
def violationMsg (table column : String) (minv maxv : ℤ) (count : ℕ) : String :=
  "Constraint violation in " ++ table ++ " for column \x27" ++ column ++
    "\x27: Values outside " ++ rangeStr minv maxv ++ ". Found " ++
    toString count ++ " invalid entries."

/-- One iteration of the `for column, (min_val, max_val)` loop of
`check_constraints`: skip a column absent from `df.columns`, otherwise
report once when some row is invalid. -/
def checkRule (df : DataFrame) (table : String) (rule : String × ℤ × ℤ) : List String :=
  match rule with
  | (column, minv, maxv) =>
    if df.columns.contains column then
      let invalid := df.rows.filter (fun r => rowInvalid r column minv maxv)
      if invalid.isEmpty then []
      else [violationMsg table column minv maxv invalid.length]
    else []

/-- The function `check_constraints(df, table_name)` of `constraints.py`. -/
def check_constraints (df : DataFrame) (table_name : String) : List String :=
  (((CONSTRAINTS.lookup table_name).getD []).map (checkRule df table_name)).flatten

/-- String `s` contains `t` as a contiguous segment. -/
def strContainsSeg (s t : String) : Prop :=
  ∃ a b : List Char, s.data = a ++ (t.data ++ b)

/-! ## db.py -/

/-- Python truthiness of an optional string argument (`None` and the
empty string are falsy). -/
def truthy : Option String → Bool
  | some s => !(s == "")
  | none => false

/-- Python f-string rendering of an optional string (`f"{None}"` is
the text `None`). -/
def pyStr : Option String → String
  | some s => s
  | none => "None"

/-- Python `" AND ".join(conditions)`. -/
def joinAnd : List String → String
  | [] => ""
  | [c] => c
  | c :: cs => c ++ " AND " ++ joinAnd cs

/-- The query text and bound parameters that `fetch_data` in `db.py`
builds before calling `pd.read_sql`.  The table name, date column and
filter column are interpolated into the text; the date bounds and the
filter value are bound as parameters. -/
def build_query (table_name : String) (start_date end_date : Option String)
    (date_column : Option String) (filter_column : Option String)
    (filter_value : Option String) : String × List (String × String) :=
  let base_query := "SELECT * FROM " ++ table_name
  let conditions :=
    (if truthy start_date && truthy end_date then
      [pyStr date_column ++ " BETWEEN :start_date AND :end_date"] else []) ++
    (if truthy filter_column && filter_value.isSome then
      [pyStr filter_column ++ " = :filter_value"] else [])
  let params :=
    (if truthy start_date && truthy end_date then
      [("start_date", pyStr start_date), ("end_date", pyStr end_date)] else []) ++
    (if truthy filter_column && filter_value.isSome then
      [("filter_value", pyStr filter_value)] else [])
  let q1 := if conditions.isEmpty then base_query
            else base_query ++ (" WHERE " ++ joinAnd conditions)
  let q2 := if truthy date_column then q1 ++ (" ORDER BY " ++ pyStr date_column)
            else q1
  (q2, params)

/-- The relational store behind the gateway: given query text and bound
parameters it either returns a frame or fails. -/
abbrev Store := String → List (String × String) → Except String DataFrame

/-- The function `fetch_data` of `db.py`: builds the query, hands it to the store,
and on any store failure swallows the exception and returns an empty
frame (the `except` branch prints and returns `pd.DataFrame()`). -/
def fetch_data (store : Store) (table_name : String)
    (start_date end_date : Option String) (date_column : Option String)
    (filter_column : Option String) (filter_value : Option String) : DataFrame :=
  let qp := build_query table_name start_date end_date date_column filter_column filter_value
  match store qp.1 qp.2 with
  | Except.ok df => df
  | Except.error _ => DataFrame.mk [] []

/-- The `data_sources` mapping of `app.py` (station → table name). -/
def data_sources : List (String × String) :=
  [("River", "river_data"), ("Dam", "dam_data"), ("EPAN", "epan_data"),
   ("AWS", "aws_data"), ("ARS", "ars_data"), ("Gate", "gate_data")]

/-- The six known station tables (the values of `data_sources`). -/
def knownTables : List String := data_sources.map (fun p => p.2)

/-! ## app.py: highlight_alerts -/

/-- The repeated pattern `col in row and pd.notnull(row[col])` followed
by `try: ... float(row[col]) ... except: pass`: a predicate fires only
on a present, non-null, parseable cell. -/
def numCheck (row : Row) (col : String) (p : ℚ → Bool) : Bool :=
  match row.lookup col with
  | some (Cell.num q) => p q
  | _ => false

/-- The universal battery check: `float(row["batt_volt"]) < 10.5`
(the threshold 10.5 written as the exact rational `mkRat 105 10`). -/
def battCheck (row : Row) : Bool :=
  numCheck row "batt_volt" (fun q => decide (q < mkRat 105 10))

/-- The regex test `re.match(r"^g\d+$", col)`: the letter g followed by one or more
digits. -/
def isGateCol (s : String) : Bool :=
  match s.data with
  | [] => false
  | c :: rest => c == 'g' && !rest.isEmpty && rest.all (fun d => d.isDigit)

/-- The `for col in gate_cols` loop of the Gate branch: the first gate
column whose value parses and exceeds 0.00 fires the alert and breaks;
unparseable or null cells continue the loop. -/
def gateLoop (row : Row) : List String → Bool
  | [] => false
  | c :: cs =>
    if numCheck row c (fun q => decide (0 < q)) then true
    else gateLoop row cs

/-- The EPAN branch: `float(row["epan_water_depth"]) < 15` (a NaN cell
compares false, an unparseable cell raises into `except: pass`). -/
def epanCheck (row : Row) : Bool :=
  numCheck row "epan_water_depth" (fun q => decide (q < 15))

/-- The AWS branch: three independent threshold checks, any one firing
sets the alert. -/
def awsCheck (row : Row) : Bool :=
  numCheck row "rainfall" (fun q => decide (50 < q)) ||
  numCheck row "wind_speed" (fun q => decide (30 < q)) ||
  numCheck row "temperature" (fun q => decide (40 < q))

/-- The function `highlight_alerts` of `app.py`, reduced to the `alert_detected`
flag it computes for one row: the universal battery check, then the
station-specific branch selected by `station_name`, where `dfColumns`
is `daily_df.columns` from which the Gate branch derives `gate_cols`.
River, Dam and ARS have no station-specific branch. -/
def highlight_alerts (station_name : String) (dfColumns : List String) (row : Row) : Bool :=
  let batt := battCheck row
  let station :=
    if station_name = "Gate" then gateLoop row (dfColumns.filter isGateCol)
    else if station_name = "EPAN" then epanCheck row
    else if station_name = "AWS" then awsCheck row
    else false
  batt || station

/-! ## Helper lemmas -/

theorem str_append_assoc (a b c : String) : a ++ b ++ c = a ++ (b ++ c) := by
  apply String.ext
  simp [String.data_append, List.append_assoc]

theorem lookup_mem {β : Type} {l : List (String × β)} {a : String} {b : β}
    (h : l.lookup a = some b) : (a, b) ∈ l := by
  induction l with
  | nil => simp [List.lookup] at h
  | cons p ps ih =>
    obtain ⟨k, v⟩ := p
    rw [List.lookup] at h
    rcases hk : a == k with _ | _
    · rw [hk] at h
      exact List.mem_cons_of_mem _ (ih h)
    · rw [hk] at h
      simp only [Option.some.injEq] at h
      have hak : a = k := by simpa using hk
      subst hak; subst h
      exact List.mem_cons_self _ _

theorem numCheck_iff {row : Row} {col : String} {p : ℚ → Bool} :
    numCheck row col p = true ↔
      ∃ q : ℚ, row.lookup col = some (Cell.num q) ∧ p q = true := by
  unfold numCheck
  cases hl : row.lookup col with
  | none => simp
  | some v => cases v <;> simp

theorem strSeg_self (t : String) : strContainsSeg t t :=
  ⟨[], [], by simp⟩

theorem strSeg_append_left (a : String) {s t : String}
    (h : strContainsSeg s t) : strContainsSeg (a ++ s) t := by
  obtain ⟨x, y, hxy⟩ := h
  exact ⟨a.data ++ x, y, by simp [String.data_append, hxy, List.append_assoc]⟩

theorem strSeg_append_right (b : String) {s t : String}
    (h : strContainsSeg s t) : strContainsSeg (s ++ b) t := by
  obtain ⟨x, y, hxy⟩ := h
  exact ⟨x, y ++ b.data, by simp [String.data_append, hxy, List.append_assoc]⟩

/-! ## Claims about highlight_alerts -/

/-- C5: for every row and every station kind, the row is flagged when
the battery-voltage column is present, non-null, parseable and its
value is strictly below 10.5; a `batt_volt` of 10.4 is flagged
regardless of station kind, and a `batt_volt` of exactly 10.5 does not
fire the battery predicate. -/
theorem claim_C5 :
    (∀ (station : String) (cols : List String) (row : Row) (q : ℚ),
      row.lookup "batt_volt" = some (Cell.num q) → q < mkRat 105 10 →
      highlight_alerts station cols row = true) ∧
    (∀ (row : Row) (q : ℚ),
      row.lookup "batt_volt" = some (Cell.num q) → ¬ q < mkRat 105 10 →
      battCheck row = false) ∧
    (∀ (station : String) (cols : List String),
      highlight_alerts station cols [("batt_volt", Cell.num (mkRat 104 10))] = true) ∧
    battCheck [("batt_volt", Cell.num (mkRat 105 10))] = false := by
  refine ⟨?_, ?_, ?_, by decide⟩
  · intro station cols row q h1 h2
    have hb : battCheck row = true := by
      simp [battCheck, numCheck, h1, h2]
    simp [highlight_alerts, hb]
  · intro row q h1 h2
    simp [battCheck, numCheck, h1, h2]
  · intro station cols
    have hb : battCheck [("batt_volt", Cell.num (mkRat 104 10))] = true := by decide
    simp [highlight_alerts, hb]

/-- Witness for C5: a River row with `batt_volt = 10.4` is flagged. -/
theorem claim_C5_witness :
    highlight_alerts "River" [] [("batt_volt", Cell.num (mkRat 104 10))] = true :=
  claim_C5.1 "River" [] [("batt_volt", Cell.num (mkRat 104 10))] (mkRat 104 10)
    rfl (by decide)

/-- C6: for a Gate-station row the alert is the battery check or the
gate-column loop over the columns matching `g`+digits; the gate loop
fires exactly when some gate column holds a parseable value strictly
above 0.00; a firing column short-circuits the remaining checks; the
row `g1 = 0, g2 = 0, g3 = 0.01` is flagged and the all-zero row is
not. -/
theorem claim_C6 :
    (∀ (cols : List String) (row : Row),
      highlight_alerts "Gate" cols row =
        (battCheck row || gateLoop row (cols.filter isGateCol))) ∧
    (∀ (row : Row) (cols : List String),
      gateLoop row cols = true ↔
        ∃ c ∈ cols, ∃ q : ℚ, row.lookup c = some (Cell.num q) ∧ 0 < q) ∧
    (∀ (row : Row) (c : String) (q : ℚ) (cs : List String),
      row.lookup c = some (Cell.num q) → 0 < q → gateLoop row (c :: cs) = true) ∧
    highlight_alerts "Gate" ["g1", "g2", "g3"]
      [("g1", Cell.num 0), ("g2", Cell.num 0), ("g3", Cell.num (mkRat 1 100))] = true ∧
    highlight_alerts "Gate" ["g1", "g2", "g3"]
      [("g1", Cell.num 0), ("g2", Cell.num 0), ("g3", Cell.num 0)] = false := by
  refine ⟨?_, ?_, ?_, by decide, by decide⟩
  · intro cols row
    rfl
  · intro row cols
    induction cols with
    | nil => simp [gateLoop]
    | cons c cs ih =>
      by_cases hx : numCheck row c (fun q => decide (0 < q)) = true
      · obtain ⟨q, hq, hpq⟩ := numCheck_iff.mp hx
        simp only [gateLoop, hx, if_true]
        constructor
        · intro _
          exact ⟨c, List.mem_cons_self c cs, q, hq, of_decide_eq_true hpq⟩
        · intro _
          trivial
      · have hx' : numCheck row c (fun q => decide (0 < q)) = false :=
          eq_false_of_ne_true hx
        simp only [gateLoop, hx', Bool.false_eq_true, if_false]
        rw [ih]
        constructor
        · rintro ⟨c', hc', hq⟩
          exact ⟨c', List.mem_cons_of_mem _ hc', hq⟩
        · rintro ⟨c', hc', q, hq, hpos⟩
          rcases List.mem_cons.mp hc' with rfl | hc'
          · exact absurd (numCheck_iff.mpr ⟨q, hq, decide_eq_true hpos⟩) hx
          · exact ⟨c', hc', q, hq, hpos⟩
  · intro row c q cs h1 h2
    have hx : numCheck row c (fun q => decide (0 < q)) = true := by
      simp [numCheck, h1, h2]
    simp [gateLoop, hx]

/-- Witness for C6: a firing first gate column short-circuits the rest
of the gate columns. -/
theorem claim_C6_witness :
    gateLoop [("g3", Cell.num 1)] ["g3", "g4"] = true :=
  claim_C6.2.2.1 [("g3", Cell.num 1)] "g3" 1 ["g4"] rfl (by decide)

/-- C7: for an AWS row the alert is the battery check or the three
independent threshold checks (rainfall > 50, wind speed > 30,
temperature > 40), any one of which suffices; the row `rainfall = 51,
wind_speed = 10, temperature = 20` is flagged, and the same row with
`rainfall = 50` is not. -/
theorem claim_C7 :
    (∀ (cols : List String) (row : Row),
      highlight_alerts "AWS" cols row = (battCheck row || awsCheck row)) ∧
    (∀ (row : Row) (q : ℚ),
      row.lookup "rainfall" = some (Cell.num q) → 50 < q → awsCheck row = true) ∧
    (∀ (row : Row) (q : ℚ),
      row.lookup "wind_speed" = some (Cell.num q) → 30 < q → awsCheck row = true) ∧
    (∀ (row : Row) (q : ℚ),
      row.lookup "temperature" = some (Cell.num q) → 40 < q → awsCheck row = true) ∧
    highlight_alerts "AWS" []
      [("rainfall", Cell.num 51), ("wind_speed", Cell.num 10),
       ("temperature", Cell.num 20)] = true ∧
    highlight_alerts "AWS" []
      [("rainfall", Cell.num 50), ("wind_speed", Cell.num 10),
       ("temperature", Cell.num 20)] = false := by
  refine ⟨?_, ?_, ?_, ?_, by decide, by decide⟩
  · intro cols row
    rfl
  · intro row q h1 h2
    simp [awsCheck, numCheck, h1, h2]
  · intro row q h1 h2
    simp [awsCheck, numCheck, h1, h2]
  · intro row q h1 h2
    simp [awsCheck, numCheck, h1, h2]

/-- Witness for C7: a rainfall of 51 alone fires the AWS check. -/
theorem claim_C7_witness :
    awsCheck [("rainfall", Cell.num 51)] = true :=
  claim_C7.2.1 [("rainfall", Cell.num 51)] 51 rfl (by decide)

/-- C8: the evaluation is total: a predicate whose referenced column is
null or unparseable does not fire, and a row all of whose cells are
null or unparseable is never flagged, whatever the station kind. -/
theorem claim_C8 :
    (∀ (row : Row) (col : String) (p : ℚ → Bool),
      (row.lookup col = some Cell.null ∨ row.lookup col = some Cell.junk ∨
        row.lookup col = none) →
      numCheck row col p = false) ∧
    (∀ (row : Row) (c : String) (cs : List String),
      (row.lookup c = some Cell.null ∨ row.lookup c = some Cell.junk ∨
        row.lookup c = none) →
      gateLoop row (c :: cs) = gateLoop row cs) ∧
    (∀ (station : String) (cols : List String) (row : Row),
      (∀ p ∈ row, p.2 = Cell.null ∨ p.2 = Cell.junk) →
      highlight_alerts station cols row = false) := by
  have hnc : ∀ (row : Row) (col : String) (p : ℚ → Bool),
      (row.lookup col = some Cell.null ∨ row.lookup col = some Cell.junk ∨
        row.lookup col = none) →
      numCheck row col p = false := by
    intro row col p h
    rcases h with h | h | h <;> simp [numCheck, h]
  refine ⟨hnc, ?_, ?_⟩
  · intro row c cs h
    have := hnc row c (fun q => decide (0 < q)) h
    simp [gateLoop, this]
  · intro station cols row h
    have key : ∀ (col : String) (p : ℚ → Bool), numCheck row col p = false := by
      intro col p
      unfold numCheck
      cases hl : row.lookup col with
      | none => rfl
      | some v =>
        have hv := h _ (lookup_mem hl)
        rcases hv with hv | hv <;> simp only at hv <;> subst hv <;> rfl
    have hg : ∀ l : List String, gateLoop row l = false := by
      intro l
      induction l with
      | nil => rfl
      | cons c cs ih => simp [gateLoop, key, ih]
    simp [highlight_alerts, battCheck, epanCheck, awsCheck, key, hg]

/-- Witness for C8: a row whose only cell is a null battery voltage is
not flagged. -/
theorem claim_C8_witness :
    highlight_alerts "EPAN" [] [("batt_volt", Cell.null)] = false :=
  claim_C8.2.2 "EPAN" [] [("batt_volt", Cell.null)] (by decide)

/-- C10: for a River, Dam or ARS row the battery predicate is the only
one that can flag the row; when it does not fire, the row is not
flagged whatever the other columns hold. -/
theorem claim_C10 (station : String) (cols : List String) (row : Row)
    (hst : station = "River" ∨ station = "Dam" ∨ station = "ARS") :
    highlight_alerts station cols row = battCheck row ∧
    ((∀ q : ℚ, row.lookup "batt_volt" = some (Cell.num q) → ¬ q < mkRat 105 10) →
      highlight_alerts station cols row = false) := by
  have heq : highlight_alerts station cols row = battCheck row := by
    rcases hst with rfl | rfl | rfl <;> exact Bool.or_false _
  refine ⟨heq, ?_⟩
  intro hb
  rw [heq]
  unfold battCheck numCheck
  cases hl : row.lookup "batt_volt" with
  | none => rfl
  | some v =>
    cases v with
    | null => rfl
    | junk => rfl
    | num q => exact decide_eq_false (hb q hl)

/-- Witness for C10: an ARS row with a healthy battery and an extreme
rainfall value is not flagged. -/
theorem claim_C10_witness :
    highlight_alerts "ARS" ["g1"]
      [("batt_volt", Cell.num 12), ("rainfall", Cell.num 1000),
       ("g1", Cell.num 5)] = false :=
  (claim_C10 "ARS" ["g1"]
      [("batt_volt", Cell.num 12), ("rainfall", Cell.num 1000),
       ("g1", Cell.num 5)]
      (Or.inr (Or.inr rfl))).2
    (by
      intro q hq
      have h12 : Cell.num (12 : ℚ) = Cell.num q := Option.some.inj hq
      have hq12 : (12 : ℚ) = q := by injection h12
      subst hq12
      decide)

/-! ## Claims about check_constraints -/

/-- C1: for a rule `(column, (min, max))` registered for `table` and a
frame holding at least one out-of-range row in that column,
`check_constraints` returns exactly one summary message for the rule;
the message contains the table name, the column name, the rendered
range and the count of invalid rows; boundary values (exactly min or
exactly max) are not invalid and alone produce no message. -/
theorem claim_C1 (table column : String) (minv maxv : ℤ) (df : DataFrame)
    (hreg : CONSTRAINTS.lookup table = some [(column, minv, maxv)])
    (hrange : minv ≤ maxv)
    (hcol : df.columns.contains column = true)
    (hinv : ∃ r ∈ df.rows, rowInvalid r column minv maxv = true) :
    check_constraints df table =
      [violationMsg table column minv maxv
        ((df.rows.filter (fun r => rowInvalid r column minv maxv)).length)] ∧
    strContainsSeg (violationMsg table column minv maxv
      ((df.rows.filter (fun r => rowInvalid r column minv maxv)).length)) table ∧
    strContainsSeg (violationMsg table column minv maxv
      ((df.rows.filter (fun r => rowInvalid r column minv maxv)).length)) column ∧
    strContainsSeg (violationMsg table column minv maxv
      ((df.rows.filter (fun r => rowInvalid r column minv maxv)).length))
      (rangeStr minv maxv) ∧
    strContainsSeg (violationMsg table column minv maxv
      ((df.rows.filter (fun r => rowInvalid r column minv maxv)).length))
      (toString ((df.rows.filter (fun r => rowInvalid r column minv maxv)).length)) ∧
    rowInvalid [(column, Cell.num (minv : ℚ))] column minv maxv = false ∧
    rowInvalid [(column, Cell.num (maxv : ℚ))] column minv maxv = false ∧
    (∀ df2 : DataFrame,
      (∀ r ∈ df2.rows,
        (r.lookup column).getD Cell.null = Cell.num (minv : ℚ) ∨
        (r.lookup column).getD Cell.null = Cell.num (maxv : ℚ)) →
      check_constraints df2 table = []) := by
  have hcast : ((minv : ℚ)) ≤ (maxv : ℚ) := by exact_mod_cast hrange
  have hb : ∀ z : ℚ, (z = (minv : ℚ) ∨ z = (maxv : ℚ)) →
      invalidCell (Cell.num z) minv maxv = false := by
    intro z hz
    have h1 : ¬ z < (minv : ℚ) := by
      rcases hz with rfl | rfl
      · exact lt_irrefl _
      · exact not_lt.mpr hcast
    have h2 : ¬ (maxv : ℚ) < z := by
      rcases hz with rfl | rfl
      · exact not_lt.mpr hcast
      · exact lt_irrefl _
    simp [invalidCell, h1, h2]
  have hlk : ∀ c : Cell, (List.lookup column [(column, c)]).getD Cell.null = c := by
    intro c
    simp [List.lookup]
  refine ⟨?_, ?_, ?_, ?_, ?_, ?_, ?_, ?_⟩
  · unfold check_constraints
    rw [hreg]
    simp only [Option.getD_some, List.map_cons, List.map_nil, List.flatten_cons,
      List.flatten_nil, List.append_nil]
    unfold checkRule
    simp only [hcol, if_true]
    obtain ⟨r, hr, hri⟩ := hinv
    have hne : df.rows.filter (fun r => rowInvalid r column minv maxv) ≠ [] :=
      List.ne_nil_of_mem (List.mem_filter.mpr ⟨hr, hri⟩)
    have hie : (df.rows.filter (fun r => rowInvalid r column minv maxv)).isEmpty = false := by
      cases hE : (df.rows.filter (fun r => rowInvalid r column minv maxv)).isEmpty with
      | false => rfl
      | true => exact absurd (List.isEmpty_iff.mp hE) hne
    simp [hie]
  · unfold violationMsg
    exact strSeg_append_right _ (strSeg_append_right _ (strSeg_append_right _
      (strSeg_append_right _ (strSeg_append_right _ (strSeg_append_right _
        (strSeg_append_right _ (strSeg_append_left _ (strSeg_self _))))))))
  · unfold violationMsg
    exact strSeg_append_right _ (strSeg_append_right _ (strSeg_append_right _
      (strSeg_append_right _ (strSeg_append_right _
        (strSeg_append_left _ (strSeg_self _))))))
  · unfold violationMsg
    exact strSeg_append_right _ (strSeg_append_right _ (strSeg_append_right _
      (strSeg_append_left _ (strSeg_self _))))
  · unfold violationMsg
    exact strSeg_append_right _ (strSeg_append_left _ (strSeg_self _))
  · unfold rowInvalid
    rw [hlk]
    exact hb _ (Or.inl rfl)
  · unfold rowInvalid
    rw [hlk]
    exact hb _ (Or.inr rfl)
  · intro df2 hall
    unfold check_constraints
    rw [hreg]
    simp only [Option.getD_some, List.map_cons, List.map_nil, List.flatten_cons,
      List.flatten_nil, List.append_nil]
    have hfil : df2.rows.filter (fun r => rowInvalid r column minv maxv) = [] := by
      rw [List.filter_eq_nil_iff]
      intro r hr
      rcases hall r hr with h1 | h1 <;>
        simp [rowInvalid, h1, hb _ (Or.inl rfl), hb _ (Or.inr rfl)]
    simp [checkRule, hfil]

/-- A concrete river frame: one row below the minimum (999) and one
exactly at the minimum (1000). -/
def dfC1 : DataFrame :=
  DataFrame.mk ["water_level"]
    [[("water_level", Cell.num 999)], [("water_level", Cell.num 1000)]]

/-- Witness for C1: on `dfC1` the river rule yields exactly one
message counting the single invalid row. -/
theorem claim_C1_witness :
    check_constraints dfC1 "river_data" =
      [violationMsg "river_data" "water_level" 1000 2000 1] :=
  (claim_C1 "river_data" "water_level" 1000 2000 dfC1 rfl (by decide) rfl
    ⟨[("water_level", Cell.num 999)], by decide, by decide⟩).1

/-- Rules whose column is absent contribute nothing: the per-rule scan
equals the scan restricted to the rules whose column is present. -/
theorem checkRule_skip (df : DataFrame) (table : String) :
    ∀ rules : List (String × ℤ × ℤ),
      (rules.map (checkRule df table)).flatten =
        ((rules.filter (fun rule => df.columns.contains rule.1)).map
          (checkRule df table)).flatten := by
  intro rules
  induction rules with
  | nil => rfl
  | cons r rs ih =>
    obtain ⟨c, mn, mx⟩ := r
    cases hc : df.columns.contains c with
    | true =>
      simp only [List.map_cons, List.flatten_cons, List.filter_cons, hc, if_true]
      rw [ih]
    | false =>
      have hr : checkRule df table (c, mn, mx) = [] := by
        simp only [checkRule]
        rw [hc]
        simp
      simp only [List.map_cons, List.flatten_cons, List.filter_cons, hc,
        Bool.false_eq_true, if_false]
      rw [hr, ih, List.nil_append]

/-- C9: a table with no registered rules yields the empty list, and
rules whose column is absent from the frame contribute nothing: the
result equals the scan restricted to the rules whose column is
present. -/
theorem claim_C9 (df : DataFrame) (table : String) :
    (CONSTRAINTS.lookup table = none -> check_constraints df table = []) ∧
    (∀ rules, CONSTRAINTS.lookup table = some rules ->
      check_constraints df table =
        ((rules.filter (fun rule => df.columns.contains rule.1)).map
          (checkRule df table)).flatten) := by
  constructor
  · intro h
    unfold check_constraints
    rw [h]
    rfl
  · intro rules h
    unfold check_constraints
    rw [h]
    simp only [Option.getD_some]
    exact checkRule_skip df table rules

/-- Witness for C9: an unregistered table name yields no messages. -/
theorem claim_C9_witness :
    check_constraints (DataFrame.mk [] []) "unknown_table" = [] :=
  (claim_C9 (DataFrame.mk [] []) "unknown_table").1 rfl

/-! ## Claims about fetch_data -/

/-- The query text always begins with `SELECT * FROM` followed by the
table name, whatever the other arguments: no allow-list intervenes. -/
theorem build_query_shape (table : String) (sd ed dc fc fv : Option String) :
    ∃ tail : String,
      (build_query table sd ed dc fc fv).1 =
        ("SELECT * FROM " ++ table) ++ tail := by
  unfold build_query
  dsimp only
  cases hdc : truthy dc with
  | true =>
    cases hce : ((if truthy sd && truthy ed then
        [pyStr dc ++ " BETWEEN :start_date AND :end_date"] else []) ++
      (if truthy fc && fv.isSome then
        [pyStr fc ++ " = :filter_value"] else [])).isEmpty with
    | true => exact ⟨" ORDER BY " ++ pyStr dc, rfl⟩
    | false => exact ⟨_, str_append_assoc _ _ _⟩
  | false =>
    cases hce : ((if truthy sd && truthy ed then
        [pyStr dc ++ " BETWEEN :start_date AND :end_date"] else []) ++
      (if truthy fc && fv.isSome then
        [pyStr fc ++ " = :filter_value"] else [])).isEmpty with
    | true => exact ⟨"", (String.append_empty _).symm⟩
    | false => exact ⟨_, rfl⟩

/-- A recognizable non-empty frame, used to observe which query a
store was handed. -/
def sentinelDF : DataFrame := DataFrame.mk ["sentinel"] []

/-- A store that answers `sentinelDF` exactly on the query text built
for the unknown table `bogus_table`, and fails otherwise. -/
def spyStore : Store := fun q _ =>
  if q = "SELECT * FROM bogus_table ORDER BY data_date" then Except.ok sentinelDF
  else Except.error "unexpected query"

/-- Counterexample to C2: `bogus_table` is not one of the six known
station tables, yet `fetch_data` constructs the query text around it
and forwards it to the store — the store answer on exactly that
query text becomes the result, so no allow-list validation rejected
the call. -/
theorem claim_C2_counterexample :
    knownTables.contains "bogus_table" = false ∧
    (build_query "bogus_table" none none (some "data_date") none none).1 =
      "SELECT * FROM bogus_table ORDER BY data_date" ∧
    fetch_data spyStore "bogus_table" none none (some "data_date") none none =
      sentinelDF := by
  refine ⟨by decide, by decide, by decide⟩

/-- C2 amended: `fetch_data` performs no allow-list validation.  For
every table name, known or unknown, the query text is constructed
starting with `SELECT * FROM` followed by that very name, the store is
invoked on the constructed query, and its answer is the result. -/
theorem claim_C2_amended (table : String) (sd ed dc fc fv : Option String) :
    (∃ tail : String,
      (build_query table sd ed dc fc fv).1 =
        ("SELECT * FROM " ++ table) ++ tail) ∧
    (∀ (store : Store) (df : DataFrame),
      store (build_query table sd ed dc fc fv).1
          (build_query table sd ed dc fc fv).2 = Except.ok df →
      fetch_data store table sd ed dc fc fv = df) := by
  refine ⟨build_query_shape table sd ed dc fc fv, ?_⟩
  intro store df h
  unfold fetch_data
  dsimp only
  rw [h]

/-- Witness for C2 (amended): a store answering `sentinelDF` on every
query makes `fetch_data` return it. -/
theorem claim_C2_amended_witness :
    fetch_data (fun _ _ => Except.ok sentinelDF) "river_data"
      none none (some "data_date") none none = sentinelDF :=
  (claim_C2_amended "river_data" none none (some "data_date") none none).2
    (fun _ _ => Except.ok sentinelDF) sentinelDF rfl

/-- C3: when retrieval from the store fails with any error, `fetch_data`
returns the empty frame rather than propagating the failure. -/
theorem claim_C3 (table : String) (sd ed dc fc fv : Option String)
    (store : Store) (msg : String)
    (hfail : store (build_query table sd ed dc fc fv).1
        (build_query table sd ed dc fc fv).2 = Except.error msg) :
    fetch_data store table sd ed dc fc fv = DataFrame.mk [] [] := by
  unfold fetch_data
  dsimp only
  rw [hfail]

/-- Witness for C3: a store that always fails yields the empty frame. -/
theorem claim_C3_witness :
    fetch_data (fun _ _ => Except.error "connection refused") "river_data"
      none none (some "data_date") none none = DataFrame.mk [] [] :=
  claim_C3 "river_data" none none (some "data_date") none none
    (fun _ _ => Except.error "connection refused") "connection refused" rfl

/-- C4: the constructed query conjoins the BETWEEN predicate exactly
when both dates are given, conjoins the equality predicate exactly
when both the filter column and the filter value are given, appends
ORDER BY on the date column whenever one is designated, and the result
of a fetch is determined by the store behaviour on that one
constructed query (identical Query Specification, identical result). -/
theorem claim_C4 (table : String) (sd ed dc fc fv : Option String) :
    (build_query table sd ed dc fc fv).1 =
      "SELECT * FROM " ++ table ++
        (if truthy sd && truthy ed then
          (if truthy fc && fv.isSome then
            " WHERE " ++ (pyStr dc ++ " BETWEEN :start_date AND :end_date") ++
              " AND " ++ (pyStr fc ++ " = :filter_value")
          else " WHERE " ++ (pyStr dc ++ " BETWEEN :start_date AND :end_date"))
        else
          (if truthy fc && fv.isSome then
            " WHERE " ++ (pyStr fc ++ " = :filter_value")
          else "")) ++
        (if truthy dc then " ORDER BY " ++ pyStr dc else "") ∧
    (∀ store1 store2 : Store,
      store1 (build_query table sd ed dc fc fv).1
          (build_query table sd ed dc fc fv).2 =
        store2 (build_query table sd ed dc fc fv).1
          (build_query table sd ed dc fc fv).2 →
      fetch_data store1 table sd ed dc fc fv =
        fetch_data store2 table sd ed dc fc fv) := by
  constructor
  · cases h1 : truthy sd && truthy ed <;>
      cases h2 : truthy fc && fv.isSome <;>
        cases h3 : truthy dc <;>
          simp only [build_query, h1, h2, h3, Bool.false_eq_true, if_false, if_true,
            joinAnd, List.cons_append, List.append_nil, List.nil_append, List.isEmpty_nil,
            List.isEmpty_cons, String.append_empty, str_append_assoc]
  · intro store1 store2 h
    unfold fetch_data
    dsimp only
    rw [h]

/-- Witness for C4: two stores that agree on the constructed query
yield the same fetch result. -/
theorem claim_C4_witness :
    fetch_data (fun _ _ => Except.ok sentinelDF) "river_data"
      (some "2025-05-01") (some "2025-05-31") (some "data_date") none none =
    fetch_data
      (fun q _ =>
        if q = "SELECT * FROM river_data WHERE data_date BETWEEN :start_date AND :end_date ORDER BY data_date"
        then Except.ok sentinelDF else Except.error "other")
      "river_data" (some "2025-05-01") (some "2025-05-31") (some "data_date")
      none none :=
  (claim_C4 "river_data" (some "2025-05-01") (some "2025-05-31")
      (some "data_date") none none).2
    (fun _ _ => Except.ok sentinelDF)
    (fun q _ =>
      if q = "SELECT * FROM river_data WHERE data_date BETWEEN :start_date AND :end_date ORDER BY data_date"
      then Except.ok sentinelDF else Except.error "other")
    rfl
